import Mathlib

/-!
# Dev-Tracker: Event Ingestion & Aggregation Engine — verification

Shallow embedding of the Cloudflare Worker API (`workers/src/index.ts`),
the local hook script (`hooks/track.sh`) and the SQLite schema views
(`schema.sql`), together with proofs about the claims of the
natural-language specification.

Conventions of the embedding:
* D1/SQLite rows are Lean structures; tables are lists of rows.
* `INTEGER` columns are `Int`, `REAL` columns are `ℚ`, nullable columns are
  `Option _`.
* JavaScript truthiness (`!x`, `x || d`) is modelled per type: a number is
  truthy iff nonzero, a string iff nonempty, a missing (`undefined`) or
  `null` field is falsy.
* The calendar-date string `new Date(ts*1000).toISOString().split('T')[0]`
  (and SQLite `date(ts,'unixepoch')`) is injective on UTC day numbers, and
  dates are only ever compared for equality, so it is modelled by the UTC
  day index `ts.fdiv 86400`.
-/

/-- A row of the `sessions` table (`schema.sql` / D1 schema). -/
structure SessionRow where
  session_id : String
  repo_path : Option String
  project_api_key : Option String
  started_at : Int
  ended_at : Option Int
  total_tool_calls : Int
  status : String
deriving DecidableEq, Repr

/-- A row of the `tool_events` table. -/
structure ToolEventRow where
  session_id : String
  tool_name : String
  event_type : String
  exit_code : Option Int
  timestamp : Int
deriving DecidableEq, Repr

/-- A row of the `commits` table. -/
structure CommitRow where
  commit_hash : String
  repo_path : String
  session_id : Option String
  project_api_key : Option String
  message : Option String
  author : Option String
  timestamp : Int
  files_changed : Option Int
  insertions : Option Int
  deletions : Option Int
  branch : Option String
  pushed_to_roadmap : Bool
deriving DecidableEq, Repr

/-- A row of the `project_mappings` table. -/
structure MappingRow where
  repo_path : String
  project_api_key : String
  project_name : Option String
  phase : Option String
deriving DecidableEq, Repr

/-- A row of the `daily_summaries` table (D1 schema: the additive columns
default to `0`, the derived columns to `NULL`, and the table carries a
`UNIQUE(date, repo_path, user_id)` constraint). -/
structure SummaryRow where
  date : Int
  repo_path : Option String
  project_api_key : Option String
  total_sessions : Int
  total_dev_hours : ℚ
  active_coding_hours : ℚ
  total_commits : Int
  total_insertions : Int
  total_deletions : Int
  avg_commit_gap_minutes : Option ℚ
  commits_per_hour : Option ℚ
  lines_per_hour : Option ℚ
  user_id : Option String
deriving DecidableEq, Repr

/-- The whole D1 database state seen by the worker. -/
structure DB where
  sessions : List SessionRow
  tool_events : List ToolEventRow
  commits : List CommitRow
  daily_summaries : List SummaryRow
  project_mappings : List MappingRow
deriving DecidableEq, Repr

/-- UTC day index of a unix timestamp; stands for the date string
`new Date(ts*1000).toISOString().split('T')[0]` (dates are only compared
for equality in the code). -/
def dateOfTs (ts : Int) : Int := ts.fdiv 86400

/-- JS truthiness of an optional string field (`undefined`/`null`/`""` are
falsy). -/
def struthy : Option String → Bool
  | none => false
  | some s => !(s == "")

/-- JS truthiness of an optional number field (`undefined`/`null`/`0` are
falsy). -/
def ntruthy : Option Int → Bool
  | none => false
  | some n => !(n == 0)

/-- `x || null` on an optional string: a falsy value collapses to `null`. -/
def orNull (x : Option String) : Option String :=
  if struthy x then x else none

/-- `x || 0` on an optional number. -/
def orZero (x : Option Int) : Int := x.getD 0

/-- SQLite `UNIQUE(date, repo_path, user_id)` conflict test: `NULL` index
values are distinct from everything, so a conflict needs all three columns
non-`NULL`-equal (`date` is `NOT NULL`). -/
def summaryConflict (r s : SummaryRow) : Bool :=
  decide (r.date = s.date)
    && (match r.repo_path, s.repo_path with
        | some a, some b => a == b
        | _, _ => false)
    && (match r.user_id, s.user_id with
        | some a, some b => a == b
        | _, _ => false)

/-- `INSERT … ON CONFLICT(date, repo_path, user_id) DO UPDATE` against the
`daily_summaries` table: update the (at most one, by the unique index)
conflicting row, otherwise insert the new row. -/
def upsertSummary : List SummaryRow → SummaryRow → (SummaryRow → SummaryRow) → List SummaryRow
  | [], new, _ => [new]
  | r :: rs, new, upd =>
      if summaryConflict r new then upd r :: rs else r :: upsertSummary rs new upd

/-- A fresh `daily_summaries` row holding only the given columns, all other
columns at their schema defaults (`0` for additive, `NULL` for derived and
`user_id`). -/
def freshSummary (date : Int) (repo key : Option String) : SummaryRow :=
  { date := date, repo_path := repo, project_api_key := key,
    total_sessions := 0, total_dev_hours := 0, active_coding_hours := 0,
    total_commits := 0, total_insertions := 0, total_deletions := 0,
    avg_commit_gap_minutes := none, commits_per_hour := none,
    lines_per_hour := none, user_id := none }

/-- The session-close merge of `POST /api/sessions/end`
(`index.ts:91-97`): insert `{total_sessions := 1, total_dev_hours := hours}`
or add them onto the conflicting row. -/
def sessionMerge (rows : List SummaryRow) (date : Int) (repo key : Option String)
    (hours : ℚ) : List SummaryRow :=
  upsertSummary rows
    { freshSummary date repo key with total_sessions := 1, total_dev_hours := hours }
    (fun r => { r with
        total_sessions := r.total_sessions + 1
        total_dev_hours := r.total_dev_hours + hours })

/-- The commit merge of `POST /api/commits` (`index.ts:159-166`): insert
`{total_commits := 1, total_insertions := ins, total_deletions := del}` or
add them onto the conflicting row. -/
def commitMerge (rows : List SummaryRow) (date : Int) (repo key : Option String)
    (ins del : Int) : List SummaryRow :=
  upsertSummary rows
    { freshSummary date repo key with
        total_commits := 1
        total_insertions := ins
        total_deletions := del }
    (fun r => { r with
        total_commits := r.total_commits + 1
        total_insertions := r.total_insertions + ins
        total_deletions := r.total_deletions + del })

/-- `SELECT project_api_key FROM project_mappings WHERE repo_path = ?`
followed by `mapping?.project_api_key || null`. -/
def lookupMapping (maps : List MappingRow) (repo : String) : Option String :=
  match maps.find? (fun m => m.repo_path == repo) with
  | some m => orNull (some m.project_api_key)
  | none => none

/-- `POST /api/sessions/start` body after validation
(`index.ts:60-63`): `INSERT OR REPLACE INTO sessions …` — the conflicting
row (`session_id` is `UNIQUE`) is deleted and a fresh row inserted with
`ended_at = NULL`, `total_tool_calls = 0` (column defaults) and
`status = 'active'`. -/
def sessionsStartApply (db : DB) (sid : String) (repo key : Option String)
    (ts : Int) : DB :=
  { db with sessions :=
      db.sessions.filter (fun r => !(r.session_id == sid)) ++
        [{ session_id := sid, repo_path := repo, project_api_key := key,
           started_at := ts, ended_at := none, total_tool_calls := 0,
           status := "active" }] }

/-- The row transformation of the `UPDATE sessions SET ended_at = ?,
total_tool_calls = ?, status = 'completed' WHERE session_id = ?` statement
of `POST /api/sessions/end` (`index.ts:76-80`): unconditional — no
`ended_at IS NULL` guard. -/
def updateEndRow (sid : String) (ended_at : Option Int) (ttc : Int)
    (r : SessionRow) : SessionRow :=
  if r.session_id == sid then
    { r with ended_at := ended_at, total_tool_calls := ttc, status := "completed" }
  else r

/-- `POST /api/sessions/end` after validation (`index.ts:76-98`): update the
session unconditionally, re-select it, and when `started_at` and `ended_at`
are truthy merge `{sessions: 1, devHours: (ended-started)/3600}` into
`daily_summaries`. -/
def sessionsEndApply (db : DB) (sid : String) (ended_at : Option Int)
    (ttc : Option Int) : DB :=
  let sessions' := db.sessions.map (updateEndRow sid ended_at (orZero ttc))
  match sessions'.find? (fun r => r.session_id == sid) with
  | some s =>
      if ntruthy (some s.started_at) && ntruthy s.ended_at then
        let hours : ℚ := ((s.ended_at.getD 0 - s.started_at : Int) : ℚ) / 3600
        { db with sessions := sessions',
                  daily_summaries := sessionMerge db.daily_summaries
                    (dateOfTs s.started_at) s.repo_path s.project_api_key hours }
      else { db with sessions := sessions' }
  | none => { db with sessions := sessions' }

/-- `POST /api/events` after validation (`index.ts:115-125`): append the
tool event; on a `start` event bump the session's `total_tool_calls`. -/
def eventsApply (db : DB) (sid tool etype : String) (exit_code : Option Int)
    (ts : Int) : DB :=
  let db' := { db with tool_events := db.tool_events ++
      [{ session_id := sid, tool_name := tool, event_type := etype,
         exit_code := exit_code, timestamp := ts }] }
  if etype == "start" then
    { db' with sessions := db'.sessions.map (fun r =>
        if r.session_id == sid then
          { r with total_tool_calls := r.total_tool_calls + 1 }
        else r) }
  else db'

/-- `POST /api/commits` after validation (`index.ts:142-166`): resolve the
project mapping, `INSERT OR IGNORE` the commit (`commit_hash` is `UNIQUE`),
then *unconditionally* merge `{commits: 1, insertions, deletions}` into
`daily_summaries` — the merge runs whether or not the insert was ignored. -/
def commitsApply (db : DB) (hash repo : String) (sid msg author branch : Option String)
    (ts : Int) (files ins del : Option Int) : DB :=
  let key := lookupMapping db.project_mappings repo
  let commits' :=
    if db.commits.any (fun c => c.commit_hash == hash) then db.commits
    else db.commits ++
      [{ commit_hash := hash, repo_path := repo, session_id := sid,
         project_api_key := key, message := msg, author := author,
         timestamp := ts, files_changed := files, insertions := ins,
         deletions := del, branch := branch, pushed_to_roadmap := false }]
  { db with commits := commits',
            daily_summaries := commitMerge db.daily_summaries
              (dateOfTs ts) (some repo) key (orZero ins) (orZero del) }

/-- Worker HTTP responses, reduced to what the claims observe: a success
JSON or a `400` validation error. -/
inductive Resp where
  | ok : Resp
  | badRequest (msg : String) : Resp
deriving DecidableEq, Repr

/-- `POST /api/sessions/start` handler (`index.ts:52-66`) including the
JS-truthiness validation `!session_id || !started_at`. -/
def postSessionsStart (db : DB) (session_id repo_path project_api_key : Option String)
    (started_at : Option Int) : DB × Resp :=
  if struthy session_id && ntruthy started_at then
    (sessionsStartApply db (session_id.getD "") repo_path project_api_key
      (started_at.getD 0), Resp.ok)
  else (db, Resp.badRequest "session_id and started_at required")

/-- `POST /api/sessions/end` handler (`index.ts:68-101`) including the
validation `!session_id`. -/
def postSessionsEnd (db : DB) (session_id : Option String)
    (ended_at total_tool_calls : Option Int) : DB × Resp :=
  if struthy session_id then
    (sessionsEndApply db (session_id.getD "") ended_at total_tool_calls, Resp.ok)
  else (db, Resp.badRequest "session_id required")

/-- `POST /api/events` handler (`index.ts:107-128`) including the
validation `!session_id || !tool_name || !event_type || !timestamp`. -/
def postEvents (db : DB) (session_id tool_name event_type : Option String)
    (exit_code : Option Int) (timestamp : Option Int) : DB × Resp :=
  if struthy session_id && struthy tool_name && struthy event_type
      && ntruthy timestamp then
    (eventsApply db (session_id.getD "") (tool_name.getD "") (event_type.getD "")
      exit_code (timestamp.getD 0), Resp.ok)
  else (db, Resp.badRequest "session_id, tool_name, event_type, timestamp required")

/-- `POST /api/commits` handler (`index.ts:134-169`) including the
validation `!commit_hash || !repo_path || !timestamp`. -/
def postCommits (db : DB) (commit_hash repo_path session_id message author branch : Option String)
    (timestamp : Option Int) (files_changed insertions deletions : Option Int) : DB × Resp :=
  if struthy commit_hash && struthy repo_path && ntruthy timestamp then
    (commitsApply db (commit_hash.getD "") (repo_path.getD "") session_id message
      author branch (timestamp.getD 0) files_changed insertions deletions, Resp.ok)
  else (db, Resp.badRequest "commit_hash, repo_path, timestamp required")

/-- `POST /api/mappings` handler (`index.ts:182-196`): validation
`!repo_path || !project_api_key`, then `INSERT OR REPLACE` on the
`repo_path`-unique mapping table. -/
def postMappings (db : DB) (repo_path project_api_key project_name phase : Option String) :
    DB × Resp :=
  if struthy repo_path && struthy project_api_key then
    ({ db with project_mappings :=
        db.project_mappings.filter (fun m => !(m.repo_path == repo_path.getD "")) ++
          [{ repo_path := repo_path.getD "", project_api_key := project_api_key.getD "",
             project_name := project_name,
             phase := some (phase.getD "development") }] }, Resp.ok)
  else (db, Resp.badRequest "repo_path and project_api_key required")

/-! ## Local hook (`hooks/track.sh`) -/

/-- `track.sh start_session`: `INSERT OR IGNORE INTO sessions …` — a
duplicate `session_id` leaves the table unchanged. -/
def startSessionLocal (rows : List SessionRow) (sid : String)
    (repo key : Option String) (ts : Int) : List SessionRow :=
  if rows.any (fun r => r.session_id == sid) then rows
  else rows ++
    [{ session_id := sid, repo_path := repo, project_api_key := key,
       started_at := ts, ended_at := none, total_tool_calls := 0,
       status := "active" }]

/-- `track.sh end_session`: `UPDATE sessions SET ended_at = ts,
status = 'completed', total_tool_calls = n WHERE session_id = ? AND
ended_at IS NULL` — guarded, so an already-completed session is left
untouched. -/
def endSessionLocal (rows : List SessionRow) (sid : String) (ts : Int)
    (toolCount : Int) : List SessionRow :=
  rows.map (fun r =>
    if r.session_id == sid && r.ended_at == none then
      { r with ended_at := some ts, total_tool_calls := toolCount,
               status := "completed" }
    else r)

/-! ## The `v_active_coding_time` view (`schema.sql:119-137`)

`tool_events te_start LEFT JOIN tool_events te_end ON same session, same
tool name, te_start 'start', te_end 'end', te_end.timestamp >
te_start.timestamp`, summing `(te_end.timestamp - te_start.timestamp)/3600`
per join row and grouping by session: every start row contributes one term
per *later* end of the same tool (all pairs, not FIFO pairs), and a start
with no later end contributes `0` via the `LEFT JOIN` + `CASE`. -/

/-- Contribution of one start row: the sum over all matching end rows. -/
def startRowHours (evs : List ToolEventRow) (s : ToolEventRow) : ℚ :=
  ((evs.filter (fun e =>
      e.session_id == s.session_id && e.tool_name == s.tool_name
        && e.event_type == "end" && decide (s.timestamp < e.timestamp))).map
    (fun e => ((e.timestamp - s.timestamp : Int) : ℚ) / 3600)).sum

/-- `SELECT … FROM v_active_coding_time WHERE session_id = sid`. -/
def vActiveHours (evs : List ToolEventRow) (sid : String) : ℚ :=
  ((evs.filter (fun s => s.session_id == sid && s.event_type == "start")).map
    (startRowHours evs)).sum

/-! ## `generate_summary` derived fields (`track.sh`)

The derived columns written by the `INSERT OR REPLACE` of
`generate_summary`:
`CASE WHEN COALESCE(SUM(hours),0) > 0 THEN cnt / COALESCE(SUM(hours),1)
ELSE 0 END`, where `SUM` yields `NULL` on an empty set. -/

/-- SQLite `COALESCE` on a nullable `REAL`. -/
def sqlCoalesce (x : Option ℚ) (d : ℚ) : ℚ := x.getD d

/-- `commits_per_hour` as computed by `generate_summary`. -/
def genCommitsPerHour (commitCount : Int) (hoursSum : Option ℚ) : ℚ :=
  if 0 < sqlCoalesce hoursSum 0 then (commitCount : ℚ) / sqlCoalesce hoursSum 1
  else 0

/-- `lines_per_hour` as computed by `generate_summary`. -/
def genLinesPerHour (linesSum : Int) (hoursSum : Option ℚ) : ℚ :=
  if 0 < sqlCoalesce hoursSum 0 then (linesSum : ℚ) / sqlCoalesce hoursSum 1
  else 0

/-! ## ROI calculation (`GET /api/data`, `index.ts:258-284`) -/

/-- The `roi_calculation` object of the `GET /api/data` response. -/
structure RoiCalc where
  dev_hours : ℚ
  multiplier : ℚ
  estimated_manual_hours : ℚ
  time_saved : ℚ
  hourly_rate : ℚ
  cost_savings : ℚ
deriving DecidableEq, Repr

/-- The ROI arithmetic of `GET /api/data`: `timeSaved = devHours *
(multiplier - 1)`, `costSavings = timeSaved * hourlyRate`,
`estimated_manual_hours = devHours * multiplier`.  There is no validation
of `multiplier` anywhere in the handler. -/
def roiCalculation (devHours multiplier hourlyRate : ℚ) : RoiCalc :=
  { dev_hours := devHours
    multiplier := multiplier
    estimated_manual_hours := devHours * multiplier
    time_saved := devHours * (multiplier - 1)
    hourly_rate := hourlyRate
    cost_savings := devHours * (multiplier - 1) * hourlyRate }

/-- The hard-coded `multiplier` constant of `GET /api/data`. -/
def apiDataMultiplier : ℚ := 5 / 2

/-- The hard-coded `hourlyRate` constant of `GET /api/data`. -/
def apiDataHourlyRate : ℚ := 75

/-- The ROI object `GET /api/data` actually returns, at the hard-coded
configuration. -/
def apiDataRoi (devHours : ℚ) : RoiCalc :=
  roiCalculation devHours apiDataMultiplier apiDataHourlyRate

/-! ## Authentication (`index.ts:36-46` and route registrations) -/

/-- `authMiddleware`: `401` when the `Authorization` header is absent or
does not start with `'Bearer '`, `403` when the token after `'Bearer '`
(JS `slice(7)`, here `drop 7` on the character list) differs from
`API_TOKEN`, otherwise pass (`none`). -/
def authMiddleware (authHeader : Option String) (apiToken : String) : Option Nat :=
  match authHeader with
  | none => some 401
  | some h =>
      if "Bearer ".data.isPrefixOf h.data then
        if String.mk (h.data.drop 7) == apiToken then none else some 403
      else some 401

/-- Which `(method, path)` routes are registered with `authMiddleware`
(`index.ts`: the five write `POST` routes and `/mcp`; every `GET` route is
registered without it). -/
def requiresAuth (method path : String) : Bool :=
  method == "POST" &&
    (path == "/api/sessions/start" || path == "/api/sessions/end"
      || path == "/api/events" || path == "/api/commits"
      || path == "/api/mappings" || path == "/mcp")

/-- Auth outcome of dispatching a request: the middleware result when the
route carries `authMiddleware`, otherwise pass-through. -/
def routeAuth (method path : String) (authHeader : Option String)
    (apiToken : String) : Option Nat :=
  if requiresAuth method path then authMiddleware authHeader apiToken else none

/-! ## Per-key totals

Every read of `daily_summaries` aggregates with `SUM(…) GROUP BY date`
(optionally filtered by repo); `sumBy` is that aggregate for one
`(date, repo_path)` key.  It is the observable content of the summary
store: with the D1 `UNIQUE(date, repo_path, user_id)` index, worker rows
(which never set `user_id`) can pile up several physical rows per key. -/

/-- Sum of `f` over the summary rows of one `(date, repo_path)` key. -/
def sumBy {α : Type} [AddCommMonoid α] (d : Int) (rp : Option String)
    (f : SummaryRow → α) : List SummaryRow → α
  | [] => 0
  | r :: rs =>
      (if r.date = d ∧ r.repo_path = rp then f r else 0) + sumBy d rp f rs

/-! ## The Aggregator's merge stream

The only writers of `daily_summaries` in the worker are the session-close
upsert and the commit upsert; a run of the Aggregator is a fold of such
merges over the summary table. -/

/-- One Aggregator merge as emitted by the worker. -/
inductive MergeEv where
  | sess (date : Int) (repo key : Option String) (hours : ℚ)
  | comm (date : Int) (repo key : Option String) (ins del : Int)

/-- Dispatch a merge to the corresponding upsert. -/
def applyMerge (rows : List SummaryRow) : MergeEv → List SummaryRow
  | MergeEv.sess date repo key hours => sessionMerge rows date repo key hours
  | MergeEv.comm date repo key ins del => commitMerge rows date repo key ins del

/-- A merge delta is well-formed when its additive components are
non-negative (a session whose end is not before its start; commit
line-counts).  The worker does not enforce this. -/
def evWfB : MergeEv → Bool
  | MergeEv.sess _ _ _ hours => decide (0 ≤ hours)
  | MergeEv.comm _ _ _ ins del => decide (0 ≤ ins) && decide (0 ≤ del)

/-- A `daily_summaries` row for day `0` of repo `/r` holding `2`
dev-hours (as left behind by earlier session merges). -/
def rowTwoHours : SummaryRow :=
  { date := 0, repo_path := some "/r", project_api_key := none,
    total_sessions := 1, total_dev_hours := 2, active_coding_hours := 0,
    total_commits := 0, total_insertions := 0, total_deletions := 0,
    avg_commit_gap_minutes := none, commits_per_hour := none,
    lines_per_hour := none, user_id := none }

/-- An active session of repo `/r` started at unix time `7200`. -/
def sessionAt7200 : SessionRow :=
  { session_id := "s", repo_path := some "/r", project_api_key := none,
    started_at := 7200, ended_at := none, total_tool_calls := 0,
    status := "active" }

/-- Database state before the out-of-order end event of the C4
counterexample. -/
def dbBeforeBadEnd : DB :=
  { sessions := [sessionAt7200], tool_events := [], commits := [],
    daily_summaries := [rowTwoHours], project_mappings := [] }

/-- The six routes registered with `authMiddleware` in `index.ts`. -/
def writeRoutes : List (String × String) :=
  [("POST", "/api/sessions/start"), ("POST", "/api/sessions/end"),
   ("POST", "/api/events"), ("POST", "/api/commits"),
   ("POST", "/api/mappings"), ("POST", "/mcp")]

/-- The read routes registered without `authMiddleware` in `index.ts`. -/
def readRoutes : List (String × String) :=
  [("GET", "/api/data"), ("GET", "/api/stats"), ("GET", "/api/export/csv"),
   ("GET", "/api/mappings"), ("GET", "/api/health")]

/-- The empty database. -/
def emptyDB : DB :=
  { sessions := [], tool_events := [], commits := [], daily_summaries := [],
    project_mappings := [] }

/-- A completed session of repo `/r` (started `100`, ended `200`, seven
tool calls). -/
def doneSession : SessionRow :=
  { session_id := "s", repo_path := some "/r", project_api_key := none,
    started_at := 100, ended_at := some 200, total_tool_calls := 7,
    status := "completed" }

/-- A database holding only `doneSession`. -/
def dbDone : DB :=
  { sessions := [doneSession], tool_events := [], commits := [],
    daily_summaries := [], project_mappings := [] }

/-- An active session of repo `/r` started at unix time `3600`. -/
def sessionAt3600 : SessionRow :=
  { session_id := "s", repo_path := some "/r", project_api_key := none,
    started_at := 3600, ended_at := none, total_tool_calls := 0,
    status := "active" }

/-- A database holding one active session and no summaries. -/
def dbOneActive : DB :=
  { sessions := [sessionAt3600], tool_events := [], commits := [],
    daily_summaries := [], project_mappings := [] }

/-- Two starts then two ends of tool `A` in session `s` at times
`0 < 10 < 20 < 30`. -/
def fifoScenario : List ToolEventRow :=
  [{ session_id := "s", tool_name := "A", event_type := "start",
     exit_code := none, timestamp := 0 },
   { session_id := "s", tool_name := "A", event_type := "start",
     exit_code := none, timestamp := 10 },
   { session_id := "s", tool_name := "A", event_type := "end",
     exit_code := some 0, timestamp := 20 },
   { session_id := "s", tool_name := "A", event_type := "end",
     exit_code := some 0, timestamp := 30 }]

/-- A summary row for day `1` of `/r` whose stored derived fields are
consistent with its additive fields (`0` commits over `1` dev-hour). -/
def consistentRow : SummaryRow :=
  { date := 1, repo_path := some "/r", project_api_key := none,
    total_sessions := 1, total_dev_hours := 1, active_coding_hours := 0,
    total_commits := 0, total_insertions := 0, total_deletions := 0,
    avg_commit_gap_minutes := none, commits_per_hour := some 0,
    lines_per_hour := some 0, user_id := none }

/-- A database holding only `consistentRow`. -/
def dbConsistent : DB :=
  { sessions := [], tool_events := [], commits := [],
    daily_summaries := [consistentRow], project_mappings := [] }

theorem sumBy_append {α : Type} [AddCommMonoid α] (d : Int) (rp : Option String)
    (f : SummaryRow → α) (l₁ l₂ : List SummaryRow) :
    sumBy d rp f (l₁ ++ l₂) = sumBy d rp f l₁ + sumBy d rp f l₂ := by
  induction l₁ with
  | nil => simp [sumBy]
  | cons r rs ih => simp [sumBy, ih, add_assoc]

theorem summaryConflict_date {r s : SummaryRow} (h : summaryConflict r s = true) :
    r.date = s.date := by
  unfold summaryConflict at h
  simp only [Bool.and_eq_true, decide_eq_true_eq] at h
  exact h.1.1

theorem summaryConflict_repo {r s : SummaryRow} (h : summaryConflict r s = true) :
    r.repo_path = s.repo_path := by
  unfold summaryConflict at h
  simp only [Bool.and_eq_true, decide_eq_true_eq] at h
  have h2 := h.1.2
  cases hr : r.repo_path with
  | none => rw [hr] at h2; cases hs : s.repo_path <;> simp [hs] at h2
  | some a =>
      cases hs : s.repo_path with
      | none => rw [hr, hs] at h2; simp at h2
      | some b => rw [hr, hs] at h2; simp only [beq_iff_eq] at h2; simp [h2]

/-- The delta accounting of the upsert: if the update adds `δ` to the
`f`-column of any row without moving it to another key, and the inserted
row carries `f new = δ`, then the per-key total gains exactly `δ` on the
key of `new` and is untouched elsewhere. -/
theorem sumBy_upsertSummary {α : Type} [AddCommMonoid α] (d : Int)
    (rp : Option String) (f : SummaryRow → α) (rows : List SummaryRow)
    (new : SummaryRow) (upd : SummaryRow → SummaryRow) (δ : α)
    (hkey : ∀ r, (upd r).date = r.date ∧ (upd r).repo_path = r.repo_path)
    (hupd : ∀ r, f (upd r) = f r + δ) (hnew : f new = δ) :
    sumBy d rp f (upsertSummary rows new upd) =
      sumBy d rp f rows + (if new.date = d ∧ new.repo_path = rp then δ else 0) := by
  induction rows with
  | nil => simp [upsertSummary, sumBy, hnew]
  | cons r rs ih =>
      by_cases hc : summaryConflict r new
      · have hdate : r.date = new.date := summaryConflict_date hc
        have hrepo : r.repo_path = new.repo_path := summaryConflict_repo hc
        simp only [upsertSummary, hc, if_pos, sumBy]
        have hk := hkey r
        rw [hupd r]
        by_cases hm : new.date = d ∧ new.repo_path = rp
        · have hrm : (upd r).date = d ∧ (upd r).repo_path = rp := by
            refine ⟨?_, ?_⟩
            · rw [hk.1, hdate]; exact hm.1
            · rw [hk.2, hrepo]; exact hm.2
          have hrm' : r.date = d ∧ r.repo_path = rp := by
            refine ⟨?_, ?_⟩
            · rw [hdate]; exact hm.1
            · rw [hrepo]; exact hm.2
          simp only [if_pos hrm, if_pos hrm', if_pos hm]
          abel
        · have hrm : ¬((upd r).date = d ∧ (upd r).repo_path = rp) := by
            intro h
            exact hm ⟨by rw [← hdate, ← hk.1]; exact h.1,
                      by rw [← hrepo, ← hk.2]; exact h.2⟩
          have hrm' : ¬(r.date = d ∧ r.repo_path = rp) := by
            intro h
            exact hm ⟨by rw [← hdate]; exact h.1, by rw [← hrepo]; exact h.2⟩
          simp only [if_neg hrm, if_neg hrm', if_neg hm]
          abel
      · simp only [upsertSummary, hc, if_neg, ite_false, sumBy, ih]
        abel

/-! ### Per-field deltas of the two merges -/

theorem sessionMerge_sessions_eq (rows : List SummaryRow) (date : Int)
    (repo key : Option String) (hours : ℚ) (d : Int) (rp : Option String) :
    sumBy d rp (fun r => r.total_sessions) (sessionMerge rows date repo key hours) =
      sumBy d rp (fun r => r.total_sessions) rows +
        (if date = d ∧ repo = rp then 1 else 0) :=
  sumBy_upsertSummary d rp _ rows _ _ 1 (fun _ => ⟨rfl, rfl⟩) (fun _ => rfl) rfl

theorem sessionMerge_devHours_eq (rows : List SummaryRow) (date : Int)
    (repo key : Option String) (hours : ℚ) (d : Int) (rp : Option String) :
    sumBy d rp (fun r => r.total_dev_hours) (sessionMerge rows date repo key hours) =
      sumBy d rp (fun r => r.total_dev_hours) rows +
        (if date = d ∧ repo = rp then hours else 0) :=
  sumBy_upsertSummary d rp _ rows _ _ hours (fun _ => ⟨rfl, rfl⟩) (fun _ => rfl) rfl

theorem sessionMerge_commits_eq (rows : List SummaryRow) (date : Int)
    (repo key : Option String) (hours : ℚ) (d : Int) (rp : Option String) :
    sumBy d rp (fun r => r.total_commits) (sessionMerge rows date repo key hours) =
      sumBy d rp (fun r => r.total_commits) rows := by
  have h := sumBy_upsertSummary d rp (fun r => r.total_commits) rows
    ({ freshSummary date repo key with total_sessions := 1, total_dev_hours := hours })
    (fun r => { r with
        total_sessions := r.total_sessions + 1
        total_dev_hours := r.total_dev_hours + hours })
    0 (fun _ => ⟨rfl, rfl⟩) (fun _ => (add_zero _).symm) rfl
  simpa [sessionMerge] using h

theorem sessionMerge_insertions_eq (rows : List SummaryRow) (date : Int)
    (repo key : Option String) (hours : ℚ) (d : Int) (rp : Option String) :
    sumBy d rp (fun r => r.total_insertions) (sessionMerge rows date repo key hours) =
      sumBy d rp (fun r => r.total_insertions) rows := by
  have h := sumBy_upsertSummary d rp (fun r => r.total_insertions) rows
    ({ freshSummary date repo key with total_sessions := 1, total_dev_hours := hours })
    (fun r => { r with
        total_sessions := r.total_sessions + 1
        total_dev_hours := r.total_dev_hours + hours })
    0 (fun _ => ⟨rfl, rfl⟩) (fun _ => (add_zero _).symm) rfl
  simpa [sessionMerge] using h

theorem sessionMerge_deletions_eq (rows : List SummaryRow) (date : Int)
    (repo key : Option String) (hours : ℚ) (d : Int) (rp : Option String) :
    sumBy d rp (fun r => r.total_deletions) (sessionMerge rows date repo key hours) =
      sumBy d rp (fun r => r.total_deletions) rows := by
  have h := sumBy_upsertSummary d rp (fun r => r.total_deletions) rows
    ({ freshSummary date repo key with total_sessions := 1, total_dev_hours := hours })
    (fun r => { r with
        total_sessions := r.total_sessions + 1
        total_dev_hours := r.total_dev_hours + hours })
    0 (fun _ => ⟨rfl, rfl⟩) (fun _ => (add_zero _).symm) rfl
  simpa [sessionMerge] using h

theorem sessionMerge_active_eq (rows : List SummaryRow) (date : Int)
    (repo key : Option String) (hours : ℚ) (d : Int) (rp : Option String) :
    sumBy d rp (fun r => r.active_coding_hours) (sessionMerge rows date repo key hours) =
      sumBy d rp (fun r => r.active_coding_hours) rows := by
  have h := sumBy_upsertSummary d rp (fun r => r.active_coding_hours) rows
    ({ freshSummary date repo key with total_sessions := 1, total_dev_hours := hours })
    (fun r => { r with
        total_sessions := r.total_sessions + 1
        total_dev_hours := r.total_dev_hours + hours })
    0 (fun _ => ⟨rfl, rfl⟩) (fun _ => (add_zero _).symm) rfl
  simpa [sessionMerge] using h

theorem commitMerge_commits_eq (rows : List SummaryRow) (date : Int)
    (repo key : Option String) (ins del : Int) (d : Int) (rp : Option String) :
    sumBy d rp (fun r => r.total_commits) (commitMerge rows date repo key ins del) =
      sumBy d rp (fun r => r.total_commits) rows +
        (if date = d ∧ repo = rp then 1 else 0) :=
  sumBy_upsertSummary d rp _ rows _ _ 1 (fun _ => ⟨rfl, rfl⟩) (fun _ => rfl) rfl

theorem commitMerge_insertions_eq (rows : List SummaryRow) (date : Int)
    (repo key : Option String) (ins del : Int) (d : Int) (rp : Option String) :
    sumBy d rp (fun r => r.total_insertions) (commitMerge rows date repo key ins del) =
      sumBy d rp (fun r => r.total_insertions) rows +
        (if date = d ∧ repo = rp then ins else 0) :=
  sumBy_upsertSummary d rp _ rows _ _ ins (fun _ => ⟨rfl, rfl⟩) (fun _ => rfl) rfl

theorem commitMerge_deletions_eq (rows : List SummaryRow) (date : Int)
    (repo key : Option String) (ins del : Int) (d : Int) (rp : Option String) :
    sumBy d rp (fun r => r.total_deletions) (commitMerge rows date repo key ins del) =
      sumBy d rp (fun r => r.total_deletions) rows +
        (if date = d ∧ repo = rp then del else 0) :=
  sumBy_upsertSummary d rp _ rows _ _ del (fun _ => ⟨rfl, rfl⟩) (fun _ => rfl) rfl

theorem commitMerge_sessions_eq (rows : List SummaryRow) (date : Int)
    (repo key : Option String) (ins del : Int) (d : Int) (rp : Option String) :
    sumBy d rp (fun r => r.total_sessions) (commitMerge rows date repo key ins del) =
      sumBy d rp (fun r => r.total_sessions) rows := by
  have h := sumBy_upsertSummary d rp (fun r => r.total_sessions) rows
    ({ freshSummary date repo key with
        total_commits := 1
        total_insertions := ins
        total_deletions := del })
    (fun r => { r with
        total_commits := r.total_commits + 1
        total_insertions := r.total_insertions + ins
        total_deletions := r.total_deletions + del })
    0 (fun _ => ⟨rfl, rfl⟩) (fun _ => (add_zero _).symm) rfl
  simpa [commitMerge] using h

theorem commitMerge_devHours_eq (rows : List SummaryRow) (date : Int)
    (repo key : Option String) (ins del : Int) (d : Int) (rp : Option String) :
    sumBy d rp (fun r => r.total_dev_hours) (commitMerge rows date repo key ins del) =
      sumBy d rp (fun r => r.total_dev_hours) rows := by
  have h := sumBy_upsertSummary d rp (fun r => r.total_dev_hours) rows
    ({ freshSummary date repo key with
        total_commits := 1
        total_insertions := ins
        total_deletions := del })
    (fun r => { r with
        total_commits := r.total_commits + 1
        total_insertions := r.total_insertions + ins
        total_deletions := r.total_deletions + del })
    0 (fun _ => ⟨rfl, rfl⟩) (fun _ => (add_zero _).symm) rfl
  simpa [commitMerge] using h

theorem commitMerge_active_eq (rows : List SummaryRow) (date : Int)
    (repo key : Option String) (ins del : Int) (d : Int) (rp : Option String) :
    sumBy d rp (fun r => r.active_coding_hours) (commitMerge rows date repo key ins del) =
      sumBy d rp (fun r => r.active_coding_hours) rows := by
  have h := sumBy_upsertSummary d rp (fun r => r.active_coding_hours) rows
    ({ freshSummary date repo key with
        total_commits := 1
        total_insertions := ins
        total_deletions := del })
    (fun r => { r with
        total_commits := r.total_commits + 1
        total_insertions := r.total_insertions + ins
        total_deletions := r.total_deletions + del })
    0 (fun _ => ⟨rfl, rfl⟩) (fun _ => (add_zero _).symm) rfl
  simpa [commitMerge] using h

theorem applyMerge_mono (rows : List SummaryRow) (ev : MergeEv)
    (hwf : evWfB ev = true) (d : Int) (rp : Option String) :
    sumBy d rp (fun r => r.total_sessions) rows ≤
        sumBy d rp (fun r => r.total_sessions) (applyMerge rows ev) ∧
      sumBy d rp (fun r => r.total_dev_hours) rows ≤
        sumBy d rp (fun r => r.total_dev_hours) (applyMerge rows ev) ∧
      sumBy d rp (fun r => r.active_coding_hours) rows ≤
        sumBy d rp (fun r => r.active_coding_hours) (applyMerge rows ev) ∧
      sumBy d rp (fun r => r.total_commits) rows ≤
        sumBy d rp (fun r => r.total_commits) (applyMerge rows ev) ∧
      sumBy d rp (fun r => r.total_insertions) rows ≤
        sumBy d rp (fun r => r.total_insertions) (applyMerge rows ev) ∧
      sumBy d rp (fun r => r.total_deletions) rows ≤
        sumBy d rp (fun r => r.total_deletions) (applyMerge rows ev) := by
  cases ev with
  | sess date repo key hours =>
      have hh : (0 : ℚ) ≤ hours := of_decide_eq_true hwf
      simp only [applyMerge]
      refine ⟨?_, ?_, ?_, ?_, ?_, ?_⟩
      · rw [sessionMerge_sessions_eq]
        exact le_add_of_nonneg_right (by split_ifs <;> norm_num)
      · rw [sessionMerge_devHours_eq]
        exact le_add_of_nonneg_right (by split_ifs <;> simp [hh])
      · rw [sessionMerge_active_eq]
      · rw [sessionMerge_commits_eq]
      · rw [sessionMerge_insertions_eq]
      · rw [sessionMerge_deletions_eq]
  | comm date repo key ins del =>
      have h := Bool.and_eq_true_iff.mp hwf
      have hi : (0 : Int) ≤ ins := of_decide_eq_true h.1
      have hd : (0 : Int) ≤ del := of_decide_eq_true h.2
      simp only [applyMerge]
      refine ⟨?_, ?_, ?_, ?_, ?_, ?_⟩
      · rw [commitMerge_sessions_eq]
      · rw [commitMerge_devHours_eq]
      · rw [commitMerge_active_eq]
      · rw [commitMerge_commits_eq]
        exact le_add_of_nonneg_right (by split_ifs <;> norm_num)
      · rw [commitMerge_insertions_eq]
        exact le_add_of_nonneg_right (by split_ifs <;> simp [hi])
      · rw [commitMerge_deletions_eq]
        exact le_add_of_nonneg_right (by split_ifs <;> simp [hd])

/-! ## Claims -/

/-- C7: the ROI calculator of `GET /api/data` is the pure function with
`manualHoursEstimate = devHours * multiplier`, `timeSaved =
manualHoursEstimate - devHours` and `costSavings = timeSaved * hourlyRate`;
at the handler's configuration (`multiplier = 2.5`, `hourlyRate = 75`) and
`devHours = 40` it returns `manualHoursEstimate = 100`, `timeSaved = 60`,
`costSavings = 4500`. -/
theorem C7_roi_formula :
    (∀ d m r : ℚ,
        (roiCalculation d m r).estimated_manual_hours = d * m ∧
        (roiCalculation d m r).time_saved =
          (roiCalculation d m r).estimated_manual_hours - d ∧
        (roiCalculation d m r).cost_savings =
          (roiCalculation d m r).time_saved * r) ∧
    apiDataRoi 40 =
      { dev_hours := 40, multiplier := 5 / 2, estimated_manual_hours := 100,
        time_saved := 60, hourly_rate := 75, cost_savings := 4500 } := by
  constructor
  · intro d m r
    refine ⟨rfl, ?_, rfl⟩
    simp only [roiCalculation]
    ring
  · simp only [apiDataRoi, roiCalculation, apiDataMultiplier, apiDataHourlyRate]
    norm_num

/-- C8 counterexample: at `multiplier = 1/2 < 1` the ROI computation does
not reject the input; it silently computes a result with negative
`timeSaved` and `costSavings` (no error, no clamping). -/
theorem C8_counterexample :
    roiCalculation 40 (1 / 2) 75 =
      { dev_hours := 40, multiplier := 1 / 2, estimated_manual_hours := 20,
        time_saved := -20, hourly_rate := 75, cost_savings := -1500 } := by
  simp only [roiCalculation]
  norm_num

/-- C8 amended: the handler never validates `multiplier` — the computation
is total, a multiplier below `1` with positive hours silently yields
negative `timeSaved` and `costSavings`, and the only multiplier the code
ever uses is the hard-coded constant `2.5 ≥ 1`. -/
theorem C8_amended (d m r : ℚ) (hd : 0 < d) (hm : m < 1) (hr : 0 < r) :
    (roiCalculation d m r).time_saved < 0 ∧
    (roiCalculation d m r).cost_savings < 0 ∧
    1 ≤ apiDataMultiplier := by
  have hts : d * (m - 1) < 0 := mul_neg_of_pos_of_neg hd (by linarith)
  refine ⟨hts, mul_neg_of_neg_of_pos hts hr, by norm_num [apiDataMultiplier]⟩

/-- C8 witness. -/
theorem C8_witness :
    (roiCalculation 40 (1 / 2) 75).time_saved < 0 ∧
    (roiCalculation 40 (1 / 2) 75).cost_savings < 0 ∧
    1 ≤ apiDataMultiplier :=
  C8_amended 40 (1 / 2) 75 (by norm_num) (by norm_num) (by norm_num)

/-- C4 counterexample: an end event whose `ended_at` precedes the stored
`started_at` (which the worker accepts without any check) merges a negative
`devHours` delta, strictly decreasing the stored `total_dev_hours` for the
key — the additive fields are not monotone over the merges the code
actually performs. -/
theorem C4_counterexample :
    sumBy 0 (some "/r") (fun r => r.total_dev_hours)
        ((sessionsEndApply dbBeforeBadEnd "s" (some 3600) (some 0)).daily_summaries) <
      sumBy 0 (some "/r") (fun r => r.total_dev_hours)
        dbBeforeBadEnd.daily_summaries := by
  norm_num [sessionsEndApply, dbBeforeBadEnd, sessionAt7200, rowTwoHours,
    updateEndRow, orZero, ntruthy, dateOfTs, sessionMerge, upsertSummary,
    summaryConflict, freshSummary, sumBy, List.find?, Int.fdiv]

/-- C4 amended: across any sequence of Aggregator merges whose deltas are
non-negative (session end not before start, non-negative line counts —
well-formedness the worker itself does not enforce), the per-key totals of
all six additive fields are monotonically non-decreasing. -/
theorem C4_amended (evs : List MergeEv) (rows : List SummaryRow)
    (hwf : ∀ ev ∈ evs, evWfB ev = true) (d : Int) (rp : Option String) :
    sumBy d rp (fun r => r.total_sessions) rows ≤
        sumBy d rp (fun r => r.total_sessions) (evs.foldl applyMerge rows) ∧
      sumBy d rp (fun r => r.total_dev_hours) rows ≤
        sumBy d rp (fun r => r.total_dev_hours) (evs.foldl applyMerge rows) ∧
      sumBy d rp (fun r => r.active_coding_hours) rows ≤
        sumBy d rp (fun r => r.active_coding_hours) (evs.foldl applyMerge rows) ∧
      sumBy d rp (fun r => r.total_commits) rows ≤
        sumBy d rp (fun r => r.total_commits) (evs.foldl applyMerge rows) ∧
      sumBy d rp (fun r => r.total_insertions) rows ≤
        sumBy d rp (fun r => r.total_insertions) (evs.foldl applyMerge rows) ∧
      sumBy d rp (fun r => r.total_deletions) rows ≤
        sumBy d rp (fun r => r.total_deletions) (evs.foldl applyMerge rows) := by
  induction evs generalizing rows with
  | nil => simp [List.foldl]
  | cons ev evs ih =>
      have hstep := applyMerge_mono rows ev (hwf ev (List.mem_cons_self ev evs)) d rp
      have hrest := ih (applyMerge rows ev)
        (fun e he => hwf e (List.mem_cons_of_mem ev he))
      simp only [List.foldl_cons]
      exact ⟨le_trans hstep.1 hrest.1,
             le_trans hstep.2.1 hrest.2.1,
             le_trans hstep.2.2.1 hrest.2.2.1,
             le_trans hstep.2.2.2.1 hrest.2.2.2.1,
             le_trans hstep.2.2.2.2.1 hrest.2.2.2.2.1,
             le_trans hstep.2.2.2.2.2 hrest.2.2.2.2.2⟩

/-- C4 witness. -/
theorem C4_witness :
    sumBy 0 (some "/r") (fun r => r.total_commits) [] ≤
      sumBy 0 (some "/r") (fun r => r.total_commits)
        (([MergeEv.sess 0 (some "/r") none 1,
           MergeEv.comm 0 (some "/r") none 10 2]).foldl applyMerge []) :=
  (C4_amended [MergeEv.sess 0 (some "/r") none 1,
      MergeEv.comm 0 (some "/r") none 10 2] []
    (by intro ev hev; fin_cases hev <;> decide) 0 (some "/r")).2.2.2.1

/-- C10: every write endpoint runs `authMiddleware`, which answers `401`
when the `Authorization` header is absent or does not start with
`'Bearer '` and `403` when the token after `'Bearer '` differs from the
configured `API_TOKEN`; every read endpoint is dispatched with no token
check at all. -/
theorem C10_auth :
    (∀ mp ∈ writeRoutes, ∀ (h : Option String) (t : String),
        ((∀ s, h = some s → "Bearer ".data.isPrefixOf s.data = false) →
            routeAuth mp.1 mp.2 h t = some 401) ∧
        (∀ s, h = some s → "Bearer ".data.isPrefixOf s.data = true →
            String.mk (s.data.drop 7) ≠ t →
            routeAuth mp.1 mp.2 h t = some 403)) ∧
    (∀ mp ∈ readRoutes, ∀ (h : Option String) (t : String),
        routeAuth mp.1 mp.2 h t = none) := by
  constructor
  · intro mp hmp h t
    have hreq : requiresAuth mp.1 mp.2 = true := by
      simp only [writeRoutes, List.mem_cons, List.not_mem_nil, or_false] at hmp
      rcases hmp with h1 | h1 | h1 | h1 | h1 | h1 <;> subst h1 <;> decide
    constructor
    · intro hns
      cases h with
      | none => simp [routeAuth, hreq, authMiddleware]
      | some s =>
          have := hns s rfl
          simp [routeAuth, hreq, authMiddleware, this]
    · intro s hs hstart hdiff
      subst hs
      simp [routeAuth, hreq, authMiddleware, hstart, hdiff]
  · intro mp hmp h t
    have hreq : requiresAuth mp.1 mp.2 = false := by
      simp only [readRoutes, List.mem_cons, List.not_mem_nil, or_false] at hmp
      rcases hmp with h1 | h1 | h1 | h1 | h1 <;> subst h1 <;> decide
    simp [routeAuth, hreq]

/-- C10 witness. -/
theorem C10_witness :
    routeAuth "POST" "/api/events" (some "Basic abc") "tok" = some 401 ∧
    routeAuth "POST" "/api/commits" (some "Bearer wrong") "tok" = some 403 ∧
    routeAuth "GET" "/api/data" (some "Bearer wrong") "tok" = none := by
  refine ⟨?_, ?_, ?_⟩
  · exact ((C10_auth.1 ("POST", "/api/events") (by simp [writeRoutes])
      (some "Basic abc") "tok").1
        (by intro s hs; injection hs with h1; subst h1; decide))
  · exact ((C10_auth.1 ("POST", "/api/commits") (by simp [writeRoutes])
      (some "Bearer wrong") "tok").2 "Bearer wrong" rfl (by decide) (by decide))
  · exact C10_auth.2 ("GET", "/api/data") (by simp [readRoutes])
      (some "Bearer wrong") "tok"

/-- C9 counterexample: a tool event whose four required fields are all
present but whose `timestamp` is the number `0` is rejected by the JS
truthiness check (`!timestamp`), contradicting "if all required fields are
present the call is not rejected"; the store is left unchanged. -/
theorem C9_counterexample :
    (some (0 : Int)).isSome = true ∧
    postEvents emptyDB (some "s") (some "Read") (some "start") none (some 0) =
      (emptyDB,
        Resp.badRequest "session_id, tool_name, event_type, timestamp required") := by
  decide

/-- C9 amended: each write endpoint rejects with a `400` validation error
and no store mutation exactly when one of its required fields is missing
*or JS-falsy* (empty string, zero); when every required field is present
and truthy the call is not rejected for validation reasons. -/
theorem C9_amended :
    (∀ db a b c ec ts,
        (struthy a && struthy b && struthy c && ntruthy ts) = false →
        postEvents db a b c ec ts =
          (db, Resp.badRequest "session_id, tool_name, event_type, timestamp required")) ∧
    (∀ db a b c ec ts,
        (struthy a && struthy b && struthy c && ntruthy ts) = true →
        (postEvents db a b c ec ts).2 = Resp.ok) ∧
    (∀ db h rp sid msg au br ts f i d,
        (struthy h && struthy rp && ntruthy ts) = false →
        postCommits db h rp sid msg au br ts f i d =
          (db, Resp.badRequest "commit_hash, repo_path, timestamp required")) ∧
    (∀ db h rp sid msg au br ts f i d,
        (struthy h && struthy rp && ntruthy ts) = true →
        (postCommits db h rp sid msg au br ts f i d).2 = Resp.ok) ∧
    (∀ db sid rp key ts,
        (struthy sid && ntruthy ts) = false →
        postSessionsStart db sid rp key ts =
          (db, Resp.badRequest "session_id and started_at required")) ∧
    (∀ db sid e tc,
        struthy sid = false →
        postSessionsEnd db sid e tc = (db, Resp.badRequest "session_id required")) := by
  refine ⟨?_, ?_, ?_, ?_, ?_, ?_⟩
  · intro db a b c ec ts hv; simp [postEvents, hv]
  · intro db a b c ec ts hv; simp [postEvents, hv]
  · intro db h rp sid msg au br ts f i d hv; simp [postCommits, hv]
  · intro db h rp sid msg au br ts f i d hv; simp [postCommits, hv]
  · intro db sid rp key ts hv; simp [postSessionsStart, hv]
  · intro db sid e tc hv; simp [postSessionsEnd, hv]

/-- C9 witness. -/
theorem C9_witness :
    postEvents emptyDB none (some "Read") (some "start") none (some 5) =
      (emptyDB,
        Resp.badRequest "session_id, tool_name, event_type, timestamp required") ∧
    (postEvents emptyDB (some "s") (some "Read") (some "start") none (some 5)).2 =
      Resp.ok ∧
    postCommits emptyDB (some "h") none none none none none (some 5) none none none =
      (emptyDB, Resp.badRequest "commit_hash, repo_path, timestamp required") ∧
    (postCommits emptyDB (some "h") (some "/r") none none none none (some 5)
        none none none).2 = Resp.ok ∧
    postSessionsStart emptyDB (some "") none none (some 5) =
      (emptyDB, Resp.badRequest "session_id and started_at required") ∧
    postSessionsEnd emptyDB none (some 5) none =
      (emptyDB, Resp.badRequest "session_id required") :=
  ⟨C9_amended.1 emptyDB none (some "Read") (some "start") none (some 5) (by decide),
   C9_amended.2.1 emptyDB (some "s") (some "Read") (some "start") none (some 5) (by decide),
   C9_amended.2.2.1 emptyDB (some "h") none none none none none (some 5) none none none
     (by decide),
   C9_amended.2.2.2.1 emptyDB (some "h") (some "/r") none none none none (some 5)
     none none none (by decide),
   C9_amended.2.2.2.2.1 emptyDB (some "") none none (some 5) (by decide),
   C9_amended.2.2.2.2.2 emptyDB none (some 5) none (by decide)⟩

/-- C3 counterexample: a repeated start for an already-stored session is
*not* a no-op in the worker — `INSERT OR REPLACE` deletes the completed
session and re-inserts a fresh `active` row, overwriting `startedAt` and
discarding `endedAt`, `status` and `toolCallCount`. -/
theorem C3_counterexample :
    (sessionsStartApply dbDone "s" (some "/r") none 300).sessions =
      [⟨"s", some "/r", none, 300, none, 0, "active"⟩] ∧
    (sessionsStartApply dbDone "s" (some "/r") none 300).sessions ≠
      dbDone.sessions := by
  decide

/-- C3 amended: a duplicate start never errors and N starts for one id
still leave exactly one stored Session, but the worker's
`INSERT OR REPLACE` *replaces* the stored record with a freshly-reset
`active` row (the `track.sh` local path's `INSERT OR IGNORE` is the true
no-op the claim describes). -/
theorem C3_amended :
    (∀ db sid repo key ts,
        (sessionsStartApply db sid repo key ts).sessions.filter
            (fun r => r.session_id == sid) =
          [⟨sid, repo, key, ts, none, 0, "active"⟩]) ∧
    (∀ rows sid repo key ts,
        rows.any (fun r => r.session_id == sid) = true →
        startSessionLocal rows sid repo key ts = rows) ∧
    (∀ rows sid repo key ts,
        rows.any (fun r => r.session_id == sid) = false →
        startSessionLocal rows sid repo key ts =
          rows ++ [⟨sid, repo, key, ts, none, 0, "active"⟩]) ∧
    (∀ db sid repo key ts, sid ≠ "" → ts ≠ 0 →
        (postSessionsStart db (some sid) repo key (some ts)).2 = Resp.ok) := by
  refine ⟨?_, ?_, ?_, ?_⟩
  · intro db sid repo key ts
    simp only [sessionsStartApply, List.filter_append]
    have h1 : (db.sessions.filter (fun r => !(r.session_id == sid))).filter
        (fun r => r.session_id == sid) = [] := by
      rw [List.filter_eq_nil_iff]
      intro a ha
      have h2 := (List.mem_filter.mp ha).2
      simp only [Bool.not_eq_true'] at h2
      simp [h2]
    rw [h1]
    simp [List.filter]
  · intro rows sid repo key ts h
    simp [startSessionLocal, h]
  · intro rows sid repo key ts h
    simp [startSessionLocal, h]
  · intro db sid repo key ts hs ht
    simp [postSessionsStart, struthy, ntruthy, hs, ht]

/-- C3 witness. -/
theorem C3_witness :
    (sessionsStartApply emptyDB "s" none none 5).sessions.filter
        (fun r => r.session_id == "s") = [⟨"s", none, none, 5, none, 0, "active"⟩] ∧
    startSessionLocal [⟨"s", none, none, 5, none, 0, "active"⟩] "s" none none 9 =
      [⟨"s", none, none, 5, none, 0, "active"⟩] ∧
    startSessionLocal [] "s" none none 5 =
      [] ++ [⟨"s", none, none, 5, none, 0, "active"⟩] ∧
    (postSessionsStart emptyDB (some "s") none none (some 5)).2 = Resp.ok :=
  ⟨C3_amended.1 emptyDB "s" none none 5,
   C3_amended.2.1 [⟨"s", none, none, 5, none, 0, "active"⟩] "s" none none 9 (by decide),
   C3_amended.2.2.1 [] "s" none none 5 (by decide),
   C3_amended.2.2.2 emptyDB "s" none none 5 (by decide) (by decide)⟩

/-- C1 counterexample: submitting the same commit twice leaves exactly one
stored `CommitRecord` and both calls report plain success (no duplicate
flag), but the daily summary receives the `{commits: 1, insertions,
deletions}` delta **twice** — the `INSERT OR IGNORE` is followed by an
unconditional summary upsert. -/
theorem C1_counterexample :
    (postCommits
        ((postCommits emptyDB (some "h1") (some "/r") none none none none
          (some 86400) (some 3) (some 10) (some 2)).1)
        (some "h1") (some "/r") none none none none
        (some 86400) (some 3) (some 10) (some 2)).1.commits =
      (postCommits emptyDB (some "h1") (some "/r") none none none none
        (some 86400) (some 3) (some 10) (some 2)).1.commits ∧
    (postCommits
        ((postCommits emptyDB (some "h1") (some "/r") none none none none
          (some 86400) (some 3) (some 10) (some 2)).1)
        (some "h1") (some "/r") none none none none
        (some 86400) (some 3) (some 10) (some 2)).1.commits.length = 1 ∧
    (postCommits
        ((postCommits emptyDB (some "h1") (some "/r") none none none none
          (some 86400) (some 3) (some 10) (some 2)).1)
        (some "h1") (some "/r") none none none none
        (some 86400) (some 3) (some 10) (some 2)).2 = Resp.ok ∧
    sumBy 1 (some "/r") (fun r => r.total_commits)
      (postCommits
        ((postCommits emptyDB (some "h1") (some "/r") none none none none
          (some 86400) (some 3) (some 10) (some 2)).1)
        (some "h1") (some "/r") none none none none
        (some 86400) (some 3) (some 10) (some 2)).1.daily_summaries = 2 := by
  decide

/-- C1 amended: after any submission the hash is stored; a resubmission of
a stored hash leaves the commits table unchanged and returns the same
success response as the first call (duplicate is not an error, but is not
flagged either); and *every* submission, duplicate or not, adds the
`{commits: 1, insertions, deletions}` delta to the daily summary of
`(date(ts), repoPath)` — N submissions merge N times, not once. -/
theorem C1_amended :
    (∀ db hash repo sid msg author branch ts files ins del,
        ((commitsApply db hash repo sid msg author branch ts files ins del).commits.any
          (fun c => c.commit_hash == hash)) = true) ∧
    (∀ db hash repo sid msg author branch ts files ins del,
        db.commits.any (fun c => c.commit_hash == hash) = true →
        (commitsApply db hash repo sid msg author branch ts files ins del).commits =
          db.commits) ∧
    (∀ db hash repo sid msg author branch ts files ins del,
        hash ≠ "" → repo ≠ "" → ts ≠ 0 →
        (postCommits db (some hash) (some repo) sid msg author branch (some ts)
          files ins del).2 = Resp.ok) ∧
    (∀ db hash repo sid msg author branch ts files ins del,
        sumBy (dateOfTs ts) (some repo) (fun r => r.total_commits)
            (commitsApply db hash repo sid msg author branch ts files ins del).daily_summaries =
          sumBy (dateOfTs ts) (some repo) (fun r => r.total_commits)
            db.daily_summaries + 1) := by
  refine ⟨?_, ?_, ?_, ?_⟩
  · intro db hash repo sid msg author branch ts files ins del
    simp only [commitsApply]
    by_cases h : db.commits.any (fun c => c.commit_hash == hash) = true
    · simp [h]
    · simp only [Bool.not_eq_true] at h
      simp [h, List.any_append]
  · intro db hash repo sid msg author branch ts files ins del h
    simp [commitsApply, h]
  · intro db hash repo sid msg author branch ts files ins del h1 h2 h3
    simp [postCommits, struthy, ntruthy, h1, h2, h3]
  · intro db hash repo sid msg author branch ts files ins del
    have h := commitMerge_commits_eq db.daily_summaries (dateOfTs ts) (some repo)
      (lookupMapping db.project_mappings repo) (orZero ins) (orZero del)
      (dateOfTs ts) (some repo)
    simp only [commitsApply]
    rw [h]
    simp

/-- C1 witness. -/
theorem C1_witness :
    (commitsApply emptyDB "h" "/r" none none none none 86400 none (some 1)
        (some 2)).commits.any (fun c => c.commit_hash == "h") = true ∧
    (postCommits emptyDB (some "h") (some "/r") none none none none (some 86400)
        none none none).2 = Resp.ok ∧
    (commitsApply (commitsApply emptyDB "h" "/r" none none none none 86400
        none none none) "h" "/r" none none none none 86400 none none none).commits =
      (commitsApply emptyDB "h" "/r" none none none none 86400
        none none none).commits ∧
    sumBy (dateOfTs 86400) (some "/r") (fun r => r.total_commits)
        (commitsApply emptyDB "h" "/r" none none none none 86400
          none none none).daily_summaries =
      sumBy (dateOfTs 86400) (some "/r") (fun r => r.total_commits)
        emptyDB.daily_summaries + 1 :=
  ⟨C1_amended.1 emptyDB "h" "/r" none none none none 86400 none (some 1) (some 2),
   C1_amended.2.2.1 emptyDB "h" "/r" none none none none 86400 none none none
     (by decide) (by decide) (by decide),
   C1_amended.2.1 (commitsApply emptyDB "h" "/r" none none none none 86400
       none none none) "h" "/r" none none none none 86400 none none none (by decide),
   C1_amended.2.2.2 emptyDB "h" "/r" none none none none 86400 none none none⟩

theorem sessionsEndApply_sessions (db : DB) (sid : String) (e tc : Option Int) :
    (sessionsEndApply db sid e tc).sessions =
      db.sessions.map (updateEndRow sid e (orZero tc)) := by
  simp only [sessionsEndApply]
  cases hf : (db.sessions.map (updateEndRow sid e (orZero tc))).find?
      (fun r => r.session_id == sid) with
  | none => simp [hf]
  | some s =>
      simp only [hf]
      by_cases hc : (ntruthy (some s.started_at) && ntruthy s.ended_at) = true
      · simp [hc]
      · simp only [Bool.not_eq_true] at hc
        simp [hc]

/-- C2 counterexample: a second end event for an already-completed session
is *not* a no-op in the worker — the unguarded `UPDATE` overwrites
`endedAt` and `toolCallCount` (with the given value, not a max), and the
`{sessions: 1, devHours}` delta is merged into the daily summary on both
calls, so the key ends up with `total_sessions = 2`. -/
theorem C2_counterexample :
    (postSessionsEnd dbOneActive (some "s") (some 7200) (some 5)).1.sessions =
      [⟨"s", some "/r", none, 3600, some 7200, 5, "completed"⟩] ∧
    (postSessionsEnd ((postSessionsEnd dbOneActive (some "s") (some 7200)
        (some 5)).1) (some "s") (some 10800) (some 2)).1.sessions =
      [⟨"s", some "/r", none, 3600, some 10800, 2, "completed"⟩] ∧
    sumBy 0 (some "/r") (fun r => r.total_sessions)
      (postSessionsEnd ((postSessionsEnd dbOneActive (some "s") (some 7200)
        (some 5)).1) (some "s") (some 10800) (some 2)).1.daily_summaries = 2 := by
  decide

/-- C2 amended: the local `track.sh` path (guarded by `ended_at IS NULL`)
really closes a session at most once — if every stored row of the id is
already ended, a further end event changes nothing; the worker path
instead overwrites `ended_at` with the new value on every call and, for a
session whose (post-update) `started_at` and `ended_at` are truthy, merges
one `{sessions: 1, devHours}` delta into the daily summary on *every* end
event, not exactly once. -/
theorem C2_amended :
    (∀ rows sid ts tc v,
        (∀ r ∈ rows, r.session_id = sid → r.ended_at = some v) →
        endSessionLocal rows sid ts tc = rows) ∧
    (∀ db sid e tc r, r ∈ (sessionsEndApply db sid e tc).sessions →
        r.session_id = sid → r.ended_at = e) ∧
    (∀ db sid e tc s,
        (db.sessions.map (updateEndRow sid e (orZero tc))).find?
            (fun r => r.session_id == sid) = some s →
        ntruthy (some s.started_at) = true → ntruthy s.ended_at = true →
        sumBy (dateOfTs s.started_at) s.repo_path (fun r => r.total_sessions)
            (sessionsEndApply db sid e tc).daily_summaries =
          sumBy (dateOfTs s.started_at) s.repo_path (fun r => r.total_sessions)
            db.daily_summaries + 1) := by
  refine ⟨?_, ?_, ?_⟩
  · intro rows sid ts tc v hall
    induction rows with
    | nil => rfl
    | cons r rs ih =>
        have hrs := ih (fun x hx hsx => hall x (List.mem_cons_of_mem r hx) hsx)
        simp only [endSessionLocal, List.map_cons] at hrs ⊢
        refine congrArg₂ _ ?_ hrs
        by_cases hsid : (r.session_id == sid) = true
        · have he := hall r (List.mem_cons_self r rs) (by simpa using hsid)
          simp [he]
        · simp [hsid]
  · intro db sid e tc r hr hsid
    rw [sessionsEndApply_sessions] at hr
    rcases List.mem_map.mp hr with ⟨r₀, hr₀, rfl⟩
    by_cases h : (r₀.session_id == sid) = true
    · simp [updateEndRow, h]
    · simp only [updateEndRow, h, Bool.false_eq_true, if_false] at hsid ⊢
      exact absurd hsid (by simpa using h)
  · intro db sid e tc s hf h1 h2
    simp only [sessionsEndApply, hf, h1, h2, Bool.and_self, if_true]
    rw [sessionMerge_sessions_eq]
    simp

/-- C2 witness. -/
theorem C2_witness :
    endSessionLocal [⟨"s", none, none, 1, some 5, 3, "completed"⟩] "s" 9 4 =
      [⟨"s", none, none, 1, some 5, 3, "completed"⟩] ∧
    (⟨"s", some "/r", none, 3600, some 7200, 5, "completed"⟩ : SessionRow).ended_at =
      some 7200 ∧
    sumBy (dateOfTs 3600) (some "/r") (fun r => r.total_sessions)
        (sessionsEndApply dbOneActive "s" (some 7200) (some 5)).daily_summaries =
      sumBy (dateOfTs 3600) (some "/r") (fun r => r.total_sessions)
        dbOneActive.daily_summaries + 1 := by
  refine ⟨?_, ?_, ?_⟩
  · exact C2_amended.1 [⟨"s", none, none, 1, some 5, 3, "completed"⟩] "s" 9 4 5
      (by decide)
  · exact C2_amended.2.1 dbOneActive "s" (some 7200) (some 5)
      ⟨"s", some "/r", none, 3600, some 7200, 5, "completed"⟩ (by decide) rfl
  · exact C2_amended.2.2 dbOneActive "s" (some 7200) (some 5)
      ⟨"s", some "/r", none, 3600, some 7200, 5, "completed"⟩
      (by decide) (by decide) (by decide)

/-- C5 counterexample: on ToolStart(A,0), ToolStart(A,10), ToolEnd(A,20),
ToolEnd(A,30) the view computes `(20-0)+(30-0)+(20-10)+(30-10) = 80`
seconds of active time — every start joins every later end — and not the
FIFO value `(20-0)+(30-10) = 40` seconds the claim states. -/
theorem C5_counterexample :
    vActiveHours fifoScenario "s" = 80 / 3600 ∧
    vActiveHours fifoScenario "s" ≠ ((20 - 0) + (30 - 10)) / 3600 := by
  have e1 : ("start" == "end") = false := by decide
  have e2 : ("end" == "start") = false := by decide
  constructor <;>
    norm_num [vActiveHours, startRowHours, fifoScenario, List.filter, e1, e2]

/-- C5 amended: `v_active_coding_time` pairs every start with *every*
later end of the same tool (a join, not FIFO): for the
start/start/end/end scenario it yields
`(t2-t0)+(t3-t0)+(t2-t1)+(t3-t1)` (each event used in up to two pairs),
while a lone unmatched start still contributes zero. -/
theorem C5_amended (sid tool : String) (t0 t1 t2 t3 : Int) (ex2 ex3 : Option Int)
    (h01 : t0 < t1) (h12 : t1 < t2) (h23 : t2 < t3) :
    vActiveHours
        [⟨sid, tool, "start", none, t0⟩, ⟨sid, tool, "start", none, t1⟩,
         ⟨sid, tool, "end", ex2, t2⟩, ⟨sid, tool, "end", ex3, t3⟩] sid =
      (((t2 - t0) + (t3 - t0) + (t2 - t1) + (t3 - t1) : Int) : ℚ) / 3600 ∧
    vActiveHours [⟨sid, tool, "start", none, t0⟩] sid = 0 := by
  have h02 : t0 < t2 := h01.trans h12
  have h03 : t0 < t3 := h02.trans h23
  have h13 : t1 < t3 := h12.trans h23
  constructor
  · simp only [vActiveHours, startRowHours, List.filter, List.map, List.sum_cons,
      List.sum_nil, h01, h02, h03, h12, h13, h23, decide_True, beq_self_eq_true,
      Bool.and_self, Bool.and_true, Bool.true_and]
    norm_num
    ring
  · simp [vActiveHours, startRowHours, List.filter]

/-- C5 witness. -/
theorem C5_witness :
    vActiveHours
        [⟨"s", "A", "start", none, 0⟩, ⟨"s", "A", "start", none, 10⟩,
         ⟨"s", "A", "end", some 0, 20⟩, ⟨"s", "A", "end", some 0, 30⟩] "s" =
      (((20 - 0) + (30 - 0) + (20 - 10) + (30 - 10) : Int) : ℚ) / 3600 ∧
    vActiveHours [⟨"s", "A", "start", none, 0⟩] "s" = 0 :=
  C5_amended "s" "A" 0 10 20 30 (some 0) (some 0) (by norm_num) (by norm_num)
    (by norm_num)

theorem upsertSummary_derived (rows : List SummaryRow) (new : SummaryRow)
    (upd : SummaryRow → SummaryRow)
    (hupd : ∀ r, (upd r).commits_per_hour = r.commits_per_hour ∧
        (upd r).lines_per_hour = r.lines_per_hour ∧
        (upd r).avg_commit_gap_minutes = r.avg_commit_gap_minutes)
    (hnew : new.commits_per_hour = none ∧ new.lines_per_hour = none ∧
        new.avg_commit_gap_minutes = none) :
    ∀ r' ∈ upsertSummary rows new upd,
      (r'.commits_per_hour = none ∧ r'.lines_per_hour = none ∧
          r'.avg_commit_gap_minutes = none) ∨
        ∃ r ∈ rows, r'.commits_per_hour = r.commits_per_hour ∧
          r'.lines_per_hour = r.lines_per_hour ∧
          r'.avg_commit_gap_minutes = r.avg_commit_gap_minutes := by
  induction rows with
  | nil =>
      intro r' hr'
      simp only [upsertSummary, List.mem_singleton] at hr'
      subst hr'
      exact Or.inl hnew
  | cons r rs ih =>
      intro r' hr'
      simp only [upsertSummary] at hr'
      by_cases hc : summaryConflict r new
      · rw [if_pos hc] at hr'
        rcases List.mem_cons.mp hr' with h | h
        · subst h
          exact Or.inr ⟨r, List.mem_cons_self r rs, hupd r⟩
        · exact Or.inr ⟨r', List.mem_cons_of_mem r h, rfl, rfl, rfl⟩
      · rw [if_neg hc] at hr'
        rcases List.mem_cons.mp hr' with h | h
        · subst h
          exact Or.inr ⟨r', List.mem_cons_self r' rs, rfl, rfl, rfl⟩
        · rcases ih r' h with h' | ⟨r₀, hr₀, h₀⟩
          · exact Or.inl h'
          · exact Or.inr ⟨r₀, List.mem_cons_of_mem r hr₀, h₀⟩

/-- C6 counterexample: after a commit merge the key `(1, /r)` totals one
commit over one dev-hour, so the claim demands a stored
`commitsPerHour = 1` (and `linesPerHour = 12`) — but no stored row carries
them: the worker merge never recomputes derived fields (the old row keeps
`0`, the inserted row has `NULL`). -/
theorem C6_counterexample :
    sumBy 1 (some "/r") (fun r => r.total_commits)
        (commitsApply dbConsistent "h" "/r" none none none none 90000
          none (some 6) (some 6)).daily_summaries = 1 ∧
    sumBy 1 (some "/r") (fun r => r.total_dev_hours)
        (commitsApply dbConsistent "h" "/r" none none none none 90000
          none (some 6) (some 6)).daily_summaries = 1 ∧
    ∀ r ∈ (commitsApply dbConsistent "h" "/r" none none none none 90000
        none (some 6) (some 6)).daily_summaries,
      r.commits_per_hour ≠ some 1 ∧ r.lines_per_hour ≠ some 12 := by
  refine ⟨?_, ?_, ?_⟩
  · decide
  · norm_num [commitsApply, dbConsistent, consistentRow, commitMerge,
      upsertSummary, summaryConflict, freshSummary, sumBy, dateOfTs,
      lookupMapping, orZero]
  · decide

/-- C6 amended: the worker's Aggregator merges never touch the derived
fields — every row after a merge carries either its previous derived
values or `NULL` (the inserted row's defaults) — so the equation
`commitsPerHour = totalCommits / totalDevHours` is restored only by the
separate `generate_summary` recomputation, whose formula does satisfy
`commitsPerHour = totalCommits / totalDevHours` when `totalDevHours > 0`
and `0` when `totalDevHours` is `0` (or the day has no sessions), and
likewise for `linesPerHour`. -/
theorem C6_amended :
    (∀ rows date repo key ins del,
        ∀ r' ∈ commitMerge rows date repo key ins del,
          (r'.commits_per_hour = none ∧ r'.lines_per_hour = none ∧
              r'.avg_commit_gap_minutes = none) ∨
            ∃ r ∈ rows, r'.commits_per_hour = r.commits_per_hour ∧
              r'.lines_per_hour = r.lines_per_hour ∧
              r'.avg_commit_gap_minutes = r.avg_commit_gap_minutes) ∧
    (∀ rows date repo key hours,
        ∀ r' ∈ sessionMerge rows date repo key hours,
          (r'.commits_per_hour = none ∧ r'.lines_per_hour = none ∧
              r'.avg_commit_gap_minutes = none) ∨
            ∃ r ∈ rows, r'.commits_per_hour = r.commits_per_hour ∧
              r'.lines_per_hour = r.lines_per_hour ∧
              r'.avg_commit_gap_minutes = r.avg_commit_gap_minutes) ∧
    (∀ (c : Int) (h : ℚ), 0 < h → genCommitsPerHour c (some h) = (c : ℚ) / h) ∧
    (∀ c : Int, genCommitsPerHour c none = 0 ∧ genCommitsPerHour c (some 0) = 0) ∧
    (∀ (l : Int) (h : ℚ), 0 < h → genLinesPerHour l (some h) = (l : ℚ) / h) ∧
    (∀ l : Int, genLinesPerHour l none = 0 ∧ genLinesPerHour l (some 0) = 0) := by
  refine ⟨?_, ?_, ?_, ?_, ?_, ?_⟩
  · intro rows date repo key ins del
    exact upsertSummary_derived rows _ _ (fun r => ⟨rfl, rfl, rfl⟩) ⟨rfl, rfl, rfl⟩
  · intro rows date repo key hours
    exact upsertSummary_derived rows _ _ (fun r => ⟨rfl, rfl, rfl⟩) ⟨rfl, rfl, rfl⟩
  · intro c h hpos
    simp [genCommitsPerHour, sqlCoalesce, hpos]
  · intro c
    constructor <;> simp [genCommitsPerHour, sqlCoalesce]
  · intro l h hpos
    simp [genLinesPerHour, sqlCoalesce, hpos]
  · intro l
    constructor <;> simp [genLinesPerHour, sqlCoalesce]

/-- C6 witness. -/
theorem C6_witness :
    ((⟨2886, some "/r", none, 0, 0, 0, 1, 6, 6, none, none, none,
        none⟩ : SummaryRow).commits_per_hour = none ∧
      (⟨2886, some "/r", none, 0, 0, 0, 1, 6, 6, none, none, none,
        none⟩ : SummaryRow).lines_per_hour = none ∧
      (⟨2886, some "/r", none, 0, 0, 0, 1, 6, 6, none, none, none,
        none⟩ : SummaryRow).avg_commit_gap_minutes = none) ∨
      (∃ r ∈ ([] : List SummaryRow),
        (⟨2886, some "/r", none, 0, 0, 0, 1, 6, 6, none, none, none,
          none⟩ : SummaryRow).commits_per_hour = r.commits_per_hour ∧
        (⟨2886, some "/r", none, 0, 0, 0, 1, 6, 6, none, none, none,
          none⟩ : SummaryRow).lines_per_hour = r.lines_per_hour ∧
        (⟨2886, some "/r", none, 0, 0, 0, 1, 6, 6, none, none, none,
          none⟩ : SummaryRow).avg_commit_gap_minutes = r.avg_commit_gap_minutes) :=
  C6_amended.1 [] 2886 (some "/r") none 6 6
    ⟨2886, some "/r", none, 0, 0, 0, 1, 6, 6, none, none, none, none⟩
    (List.mem_singleton.mpr rfl)
